import Mathlib

/-!
Shallow embedding of the `email-verifier` repository's SMTP error classifier
(`ParseSMTPError`, `parseBasicErr`, `insContains`, `newLookupError` and the
error-message constants), together with models of the components whose
implementations are only visible through their tests (the top-level
`CheckSMTP` operation, the SMTP probe, and the priority MX host-selection
strategy), and theorems settling the specification claims.

Go strings are modelled as Lean `String`; Go `len` on a string is the UTF-8
byte count (`String.utf8ByteSize`), while `[]rune` conversion yields the
character list (`String.data`).  A Go `error` value is modelled as its
`Error()` text plus a flag recording whether it is `io.EOF` (the only
identity, as opposed to text, that the classifier inspects).
-/

namespace EmailVerifier

/-- Go error value: the text returned by `Error()` plus whether the value is
`io.EOF` (checked by `errors.Is(err, io.EOF)` in `parseBasicErr`). -/
structure GoError where
  msg : String
  isEOF : Bool
deriving DecidableEq, Repr

/-- Standard error message constants from the source. -/
def ErrTimeout : String := "The connection to the mail server has timed out"

def ErrNoSuchHost : String := "Mail server does not exist"

def ErrServerUnavailable : String := "Mail server is unavailable"

def ErrBlocked : String := "Blocked by mail server"

def ErrTryAgainLater : String := "Try again later"

def ErrFullInbox : String := "Recipient out of disk space"

def ErrTooManyRCPT : String := "Too many recipients"

def ErrNoRelay : String := "Not an open relay"

def ErrMailboxBusy : String := "Mailbox busy"

def ErrExceededMessagingLimits : String := "Messaging limits have been exceeded"

def ErrNotAllowed : String := "Not Allowed"

def ErrNeedMAILBeforeRCPT : String := "Need MAIL before RCPT"

def ErrRCPTHasMoved : String := "Recipient has moved"

def ErrMailboxNotFound : String := "Mailbox not found"

/-- LookupError is an MX dns records lookup error (struct with `Message` and
`Details` fields). -/
structure LookupError where
  Message : String
  Details : String
deriving DecidableEq, Repr

/-- newLookupError creates a new LookupError reference and returns it. -/
def newLookupError (message details : String) : LookupError :=
  ⟨message, details⟩

/-- Decidable check that `sub` is a prefix of `l` (char-for-char). -/
def isPrefixList : List Char → List Char → Bool
  | [], _ => true
  | _ :: _, [] => false
  | a :: as, b :: bs => a == b && isPrefixList as bs

/-- Decidable check that `sub` occurs as a contiguous sublist of `l`;
models Go `strings.Contains`. -/
def containsList (sub : List Char) : List Char → Bool
  | [] => sub.isEmpty
  | c :: cs => isPrefixList sub (c :: cs) || containsList sub cs

/-- Go `strings.Contains` on strings. -/
def strContains (s sub : String) : Bool :=
  containsList sub.data s.data

/-- Go `strings.ToLower`, restricted to the ASCII mapping (`Char.toLower`);
every keyword the classifier compares against is plain ASCII. -/
def goToLower (s : String) : String :=
  ⟨s.data.map Char.toLower⟩

/-- insContains returns true if any of the substrings are found in the passed
string; the check is case insensitive (both sides lowered). -/
def insContains (str : String) (subStrs : List String) : Bool :=
  subStrs.any (fun sub => strContains (goToLower str) (goToLower sub))

/-- Digit-string value for `strconv.Atoi`: `none` unless every character is an
ASCII digit. -/
def digitsToNatAux : List Char → Nat → Option Nat
  | [], acc => some acc
  | c :: cs, acc =>
    if c.isDigit then digitsToNatAux cs (acc * 10 + (c.toNat - ('0').toNat))
    else none

/-- Digit-string value, rejecting the empty string. -/
def digitsToNat : List Char → Option Nat
  | [] => none
  | c :: cs => digitsToNatAux (c :: cs) 0

/-- Go `strconv.Atoi` on a short character list: optional sign followed by at
least one ASCII digit (overflow cannot occur at the three-character length the
classifier uses). -/
def atoi (cs : List Char) : Option Int :=
  match cs with
  | [] => none
  | c :: rest =>
    if c = '+' then (digitsToNat rest).map (fun n => (n : Int))
    else if c = '-' then (digitsToNat rest).map (fun n => -(n : Int))
    else (digitsToNat (c :: rest)).map (fun n => (n : Int))

/-- The first three runes of `string([]rune(errStr)[0:3])` as executed by the
Go runtime: the `[]rune` conversion writes into a zero-cleared buffer whose
capacity is at least 3 (a 32-rune stack buffer for this non-escaping
conversion), so when the string holds fewer than three runes the slice reads
the remaining positions as NUL runes rather than faulting. -/
def first3Runes (cs : List Char) : List Char :=
  (cs ++ [Char.ofNat 0, Char.ofNat 0, Char.ofNat 0]).take 3

/-- Keyword list of the greylisting override in the 4xx band. -/
def greylistKeywords : List String := ["greylist", "greylisted"]

/-- Keyword list of the 452 full-inbox disambiguation. -/
def fullKeywords : List String := ["full", "space", "over quota", "insufficient"]

/-- Hard-bounce phrase list checked first in the 5xx band. -/
def hardBouncePhrases : List String :=
  ["undeliverable", "does not exist", "may not exist", "user unknown",
   "user not found", "invalid address", "recipient invalid",
   "recipient rejected", "address rejected", "no mailbox", "no mail-enabled"]

/-- Blocklist-vendor keyword list of the 550 branch. -/
def blocklistKeywords550 : List String :=
  ["spamhaus", "proofpoint", "cloudmark", "banned", "blacklisted", "blocked",
   "block list", "denied"]

/-- Blocklist-vendor keyword list of `parseBasicErr` (note: unlike the 550
branch it has neither "blacklisted" nor "block list"). -/
def basicBlocklistKeywords : List String :=
  ["spamhaus", "proofpoint", "cloudmark", "banned", "blocked", "denied"]

/-- parseBasicErr parses a basic MX record response and returns a more
understandable LookupError. -/
def parseBasicErr (err : GoError) : LookupError :=
  if err.isEOF then newLookupError ErrServerUnavailable err.msg
  else if insContains err.msg basicBlocklistKeywords then
    newLookupError ErrBlocked err.msg
  else if insContains err.msg ["timeout"] then
    newLookupError ErrTimeout err.msg
  else if insContains err.msg ["no such host"] then
    newLookupError ErrNoSuchHost err.msg
  else if insContains err.msg ["unavailable", "connection reset"] then
    newLookupError ErrServerUnavailable err.msg
  else newLookupError err.msg err.msg

/-- The 4xx arm of `ParseSMTPError` (`400 < status < 500`). -/
def parse4xx (err : GoError) (status : Int) : LookupError :=
  if insContains err.msg greylistKeywords then
    newLookupError ErrTryAgainLater err.msg
  else if status = 421 then newLookupError ErrTryAgainLater err.msg
  else if status = 450 then newLookupError ErrMailboxBusy err.msg
  else if status = 451 then newLookupError ErrExceededMessagingLimits err.msg
  else if status = 452 then
    (if insContains err.msg fullKeywords then
       newLookupError ErrFullInbox err.msg
     else newLookupError ErrTooManyRCPT err.msg)
  else parseBasicErr err

/-- The 5xx arm of `ParseSMTPError` (`500 ≤ status`). -/
def parse5xx (err : GoError) (status : Int) : LookupError :=
  if insContains err.msg hardBouncePhrases then
    newLookupError ErrMailboxNotFound err.msg
  else if status = 503 then newLookupError ErrNeedMAILBeforeRCPT err.msg
  else if status = 550 then
    (if insContains err.msg blocklistKeywords550 then
       newLookupError ErrBlocked err.msg
     else newLookupError ErrMailboxNotFound err.msg)
  else if status = 551 then newLookupError ErrRCPTHasMoved err.msg
  else if status = 552 then newLookupError ErrFullInbox err.msg
  else if status = 553 then newLookupError ErrNoRelay err.msg
  else if status = 554 then
    (if insContains err.msg ["relay access denied"] then
       newLookupError ErrNoRelay err.msg
     else newLookupError ErrNotAllowed err.msg)
  else parseBasicErr err

/-- ParseSMTPError receives an MX server's response message and generates the
corresponding MX error (`none` models the Go `nil` pointer).  The guard is the
byte length `len(errStr) < 3`; past it, the first three runes are read via
`first3Runes` and parsed with `strconv.Atoi`. -/
def ParseSMTPError (err : GoError) : Option LookupError :=
  if err.msg.utf8ByteSize < 3 then some (parseBasicErr err)
  else
    match atoi (first3Runes err.msg.data) with
    | none => some (parseBasicErr err)
    | some status =>
      if 400 < status then
        if status < 500 then some (parse4xx err status)
        else some (parse5xx err status)
      else none

/-! Helper lemmas about the embedding. -/

theorem go_length_le (l : List Char) : l.length ≤ String.utf8ByteSize.go l := by
  induction l with
  | nil => simp [String.utf8ByteSize.go]
  | cons c cs ih =>
    have h1 : 1 ≤ c.utf8Size := c.utf8Size_pos
    simp only [String.utf8ByteSize.go, List.length_cons]
    omega

theorem length_le_utf8ByteSize (s : String) : s.data.length ≤ s.utf8ByteSize := by
  cases s with
  | mk data => simpa [String.utf8ByteSize] using go_length_le data

theorem parse_eq_basic_of_short (e : GoError) (hb : e.msg.utf8ByteSize < 3) :
    ParseSMTPError e = some (parseBasicErr e) := by
  unfold ParseSMTPError
  rw [if_pos hb]

theorem parse_eq_basic_of_atoi_none (e : GoError)
    (hb : ¬ e.msg.utf8ByteSize < 3)
    (ha : atoi (first3Runes e.msg.data) = none) :
    ParseSMTPError e = some (parseBasicErr e) := by
  unfold ParseSMTPError
  rw [if_neg hb, ha]

theorem parse_eq_of_atoi_some (e : GoError) (status : Int)
    (hb : ¬ e.msg.utf8ByteSize < 3)
    (ha : atoi (first3Runes e.msg.data) = some status) :
    ParseSMTPError e =
      if 400 < status then
        if status < 500 then some (parse4xx e status)
        else some (parse5xx e status)
      else none := by
  unfold ParseSMTPError
  rw [if_neg hb, ha]

theorem parse_reduce (e : GoError) (status : Int)
    (h3 : 3 ≤ e.msg.data.length)
    (hatoi : atoi (first3Runes e.msg.data) = some status) :
    ParseSMTPError e =
      if 400 < status then
        if status < 500 then some (parse4xx e status)
        else some (parse5xx e status)
      else none := by
  have hb : ¬ e.msg.utf8ByteSize < 3 := by
    have := length_le_utf8ByteSize e.msg
    omega
  exact parse_eq_of_atoi_some e status hb hatoi

theorem parseBasicErr_details (e : GoError) :
    (parseBasicErr e).Details = e.msg := by
  unfold parseBasicErr newLookupError
  repeat' split
  all_goals rfl

theorem parse4xx_details (e : GoError) (status : Int) :
    (parse4xx e status).Details = e.msg := by
  unfold parse4xx newLookupError
  repeat' split
  all_goals first | rfl | exact parseBasicErr_details e

theorem parse5xx_details (e : GoError) (status : Int) :
    (parse5xx e status).Details = e.msg := by
  unfold parse5xx newLookupError
  repeat' split
  all_goals first | rfl | exact parseBasicErr_details e

/-- C1 counterexample: the input "400" parses to status 400, yet
`ParseSMTPError` maps it to `nil` — the code's branch is `status > 400`, so a
status of exactly 400 is treated like the sub-400 band, contradicting the
claim that an input with status exactly 400 is never mapped to nil (the
repository's own test `TestParseError_Code400_Nil` asserts this nil). -/
theorem C1_counterexample_status400 :
    ParseSMTPError ⟨"400", false⟩ = none ∧
    atoi (first3Runes ("400" : String).data) = some 400 := by decide

/-- C1 (amended): for every error text whose first three characters parse as
an integer status, `ParseSMTPError` returns nil exactly when status ≤ 400
(status 400 included); for every status with 400 < status < 500 it returns the
non-nil 4xx classification: greylist keyword → TryAgainLater, else
421 → TryAgainLater, 450 → MailboxBusy, 451 → ExceededMessagingLimits,
452 → FullInbox or TooManyRecipients, any other 4xx → keyword
classification. -/
theorem C1_status_bands (e : GoError) (status : Int)
    (h3 : 3 ≤ e.msg.data.length)
    (hatoi : atoi (first3Runes e.msg.data) = some status) :
    (ParseSMTPError e = none ↔ status ≤ 400) ∧
    (400 < status → status < 500 →
      ParseSMTPError e = some (parse4xx e status) ∧
      (insContains e.msg greylistKeywords = true →
        parse4xx e status = newLookupError ErrTryAgainLater e.msg) ∧
      (insContains e.msg greylistKeywords = false →
        (status = 421 →
          parse4xx e status = newLookupError ErrTryAgainLater e.msg) ∧
        (status = 450 →
          parse4xx e status = newLookupError ErrMailboxBusy e.msg) ∧
        (status = 451 →
          parse4xx e status = newLookupError ErrExceededMessagingLimits e.msg) ∧
        (status = 452 → insContains e.msg fullKeywords = true →
          parse4xx e status = newLookupError ErrFullInbox e.msg) ∧
        (status = 452 → insContains e.msg fullKeywords = false →
          parse4xx e status = newLookupError ErrTooManyRCPT e.msg) ∧
        (status ≠ 421 → status ≠ 450 → status ≠ 451 → status ≠ 452 →
          parse4xx e status = parseBasicErr e))) := by
  have hred := parse_reduce e status h3 hatoi
  constructor
  · rw [hred]
    by_cases h4 : 400 < status
    · rw [if_pos h4]
      by_cases h5 : status < 500 <;> simp [h5] <;> omega
    · rw [if_neg h4]
      simp
      omega
  · intro h4 h5
    refine ⟨by rw [hred, if_pos h4, if_pos h5], ?_, ?_⟩
    · intro hg
      unfold parse4xx
      rw [if_pos hg]
    · intro hg
      refine ⟨?_, ?_, ?_, ?_, ?_, ?_⟩ <;> unfold parse4xx <;> rw [if_neg (by simp [hg])]
      · intro h; rw [if_pos h]
      · intro h; rw [if_neg (by omega), if_pos h]
      · intro h; rw [if_neg (by omega), if_neg (by omega), if_pos h]
      · intro h hf
        rw [if_neg (by omega), if_neg (by omega), if_neg (by omega), if_pos h,
          if_pos hf]
      · intro h hf
        rw [if_neg (by omega), if_neg (by omega), if_neg (by omega), if_pos h,
          if_neg (by simp [hf])]
      · intro h1 h2 hx h4x
        rw [if_neg h1, if_neg h2, if_neg hx, if_neg h4x]

/-- C1 witness: the amended claim evaluated at "450 mailbox busy"
(status 450, no greylist keyword) gives MailboxBusy. -/
theorem C1_witness_450 :
    ParseSMTPError ⟨"450 mailbox busy", false⟩ =
      some (newLookupError ErrMailboxBusy "450 mailbox busy") := by
  have h := C1_status_bands ⟨"450 mailbox busy", false⟩ 450 (by decide) (by decide)
  have h4 := h.2 (by norm_num) (by norm_num)
  rw [h4.1, (h4.2.2 (by decide)).2.1 rfl]

/-- C2 counterexample: "300 multiple choices" is not a 2xx reply and not
trivially empty, yet `ParseSMTPError` returns nil for it (its status 300 is
below the `status > 400` branch), so nil is not reserved for genuine 2xx
success replies. -/
theorem C2_counterexample_3xx :
    ParseSMTPError ⟨"300 multiple choices", false⟩ = none ∧
    atoi (first3Runes ("300 multiple choices" : String).data) = some 300 := by
  decide

/-- C2 (amended): `ParseSMTPError` returns nil exactly for the inputs that are
at least three bytes long and whose first three characters parse as an integer
status ≤ 400 — this covers every genuine 2xx reply but also 1xx and 3xx texts
and status exactly 400; every other input yields some non-nil classified
LookupError (nothing is silently dropped). -/
theorem C2_nil_iff (e : GoError) :
    ParseSMTPError e = none ↔
      3 ≤ e.msg.utf8ByteSize ∧
      ∃ status, atoi (first3Runes e.msg.data) = some status ∧ status ≤ 400 := by
  by_cases hb : e.msg.utf8ByteSize < 3
  · rw [parse_eq_basic_of_short e hb]
    simp
    omega
  · cases hat : atoi (first3Runes e.msg.data) with
    | none =>
      rw [parse_eq_basic_of_atoi_none e hb hat]
      simp [hat]
    | some status =>
      rw [parse_eq_of_atoi_some e status hb hat]
      by_cases h4 : 400 < status
      · rw [if_pos h4]
        by_cases h5 : status < 500 <;> simp [h5, hat] <;> omega
      · rw [if_neg h4]
        simp [hat]
        omega

/-- C2 witness: the spec's own example, a genuine 2xx reply, maps to nil via
the amended characterization. -/
theorem C2_witness_250 :
    ParseSMTPError ⟨"250 2.1.0 Ok", false⟩ = none :=
  (C2_nil_iff ⟨"250 2.1.0 Ok", false⟩).mpr ⟨by decide, 250, by decide, by omega⟩

/-- C3 counterexample: "550 block list" contains no hard-bounce phrase and
none of the seven blocklist-vendor keywords enumerated in the claim
(spamhaus/proofpoint/cloudmark/banned/blacklisted/blocked/denied), so the
claim requires MailboxNotFound, but the code classifies it as Blocked: the
550 branch checks an eighth keyword, the two-word phrase "block list". -/
theorem C3_counterexample_block_list :
    ParseSMTPError ⟨"550 block list", false⟩ =
      some (newLookupError ErrBlocked "550 block list") ∧
    insContains "550 block list"
      ["spamhaus", "proofpoint", "cloudmark", "banned", "blacklisted",
       "blocked", "denied"] = false ∧
    insContains "550 block list" hardBouncePhrases = false := by decide

/-- C3 (amended): for every input with parsed status ≥ 500, a hard-bounce
phrase forces MailboxNotFound regardless of the specific code or blocklist
keywords; otherwise status 550 yields Blocked when a keyword of the code's
550 blocklist set (spamhaus, proofpoint, cloudmark, banned, blacklisted,
blocked, "block list", denied — note the extra "block list" entry) is
present and MailboxNotFound otherwise; in particular
classify("550 This mailbox does not exist") = MailboxNotFound with Details
equal to the input, and classify("550 spamhaus") = Blocked. -/
theorem C3_hard_bounce_and_550 (e : GoError) (status : Int)
    (h3 : 3 ≤ e.msg.data.length)
    (hatoi : atoi (first3Runes e.msg.data) = some status)
    (h5 : 500 ≤ status) :
    (insContains e.msg hardBouncePhrases = true →
      ParseSMTPError e = some (newLookupError ErrMailboxNotFound e.msg)) ∧
    (status = 550 → insContains e.msg hardBouncePhrases = false →
      (insContains e.msg blocklistKeywords550 = true →
        ParseSMTPError e = some (newLookupError ErrBlocked e.msg)) ∧
      (insContains e.msg blocklistKeywords550 = false →
        ParseSMTPError e = some (newLookupError ErrMailboxNotFound e.msg))) ∧
    ParseSMTPError ⟨"550 This mailbox does not exist", false⟩ =
      some (newLookupError ErrMailboxNotFound
        "550 This mailbox does not exist") ∧
    ParseSMTPError ⟨"550 spamhaus", false⟩ =
      some (newLookupError ErrBlocked "550 spamhaus") := by
  have hred := parse_reduce e status h3 hatoi
  have h5xx : ParseSMTPError e = some (parse5xx e status) := by
    rw [hred, if_pos (by omega), if_neg (by omega)]
  refine ⟨?_, ?_, by decide, by decide⟩
  · intro hhb
    rw [h5xx]
    unfold parse5xx
    rw [if_pos hhb]
  · intro h550 hhb
    constructor <;> intro hkw <;> rw [h5xx] <;> unfold parse5xx <;>
      rw [if_neg (by simp [hhb]), if_neg (by omega), if_pos h550]
    · rw [if_pos hkw]
    · rw [if_neg (by simp [hkw])]

/-- C3 witness: "550 user unknown" carries the hard-bounce phrase
"user unknown", so the amended claim maps it to MailboxNotFound. -/
theorem C3_witness_user_unknown :
    ParseSMTPError ⟨"550 user unknown", false⟩ =
      some (newLookupError ErrMailboxNotFound "550 user unknown") :=
  (C3_hard_bounce_and_550 ⟨"550 user unknown", false⟩ 550 (by decide)
    (by decide) (by omega)).1 (by decide)

/-- C4 counterexample: "blacklisted" reaches keyword classification (its
first three characters are not numeric) and contains the claimed keyword
"blacklisted", yet `parseBasicErr` leaves it unclassified — Message is the
raw text, not Blocked — because the keyword-classification list, unlike the
550 branch, has no "blacklisted" entry. -/
theorem C4_counterexample_blacklisted :
    ParseSMTPError ⟨"blacklisted", false⟩ =
      some (newLookupError "blacklisted" "blacklisted") ∧
    insContains "blacklisted" ["blacklisted"] = true ∧
    (("blacklisted" : String) == ErrBlocked) = false := by decide

/-- C4 (amended): for every input that reaches keyword classification and is
not the end-of-stream condition (which maps to ServerUnavailable first), the
classifier returns Blocked when any keyword of the keyword-classification
blocklist set — spamhaus, proofpoint, cloudmark, banned, blocked, or denied;
"blacklisted" is not in this set — is present. -/
theorem C4_basic_blocklist (e : GoError) :
    (e.isEOF = true →
      parseBasicErr e = newLookupError ErrServerUnavailable e.msg) ∧
    (e.isEOF = false → insContains e.msg basicBlocklistKeywords = true →
      parseBasicErr e = newLookupError ErrBlocked e.msg) ∧
    (e.isEOF = false → insContains e.msg basicBlocklistKeywords = true →
      ¬ e.msg.utf8ByteSize < 3 → atoi (first3Runes e.msg.data) = none →
      ParseSMTPError e = some (newLookupError ErrBlocked e.msg)) := by
  have hblocked : e.isEOF = false →
      insContains e.msg basicBlocklistKeywords = true →
      parseBasicErr e = newLookupError ErrBlocked e.msg := by
    intro heof hkw
    unfold parseBasicErr
    rw [if_neg (by simp [heof]), if_pos hkw]
  refine ⟨?_, hblocked, ?_⟩
  · intro heof
    unfold parseBasicErr
    rw [if_pos heof]
  · intro heof hkw hb ha
    rw [parse_eq_basic_of_atoi_none e hb ha, hblocked heof hkw]

/-- C4 witness: a non-numeric text containing "spamhaus" is classified
Blocked by the keyword classifier. -/
theorem C4_witness_spamhaus :
    ParseSMTPError ⟨"listed at spamhaus dot org", false⟩ =
      some (newLookupError ErrBlocked "listed at spamhaus dot org") :=
  (C4_basic_blocklist ⟨"listed at spamhaus dot org", false⟩).2.2 rfl
    (by decide) (by decide) (by decide)

theorem digitsToNatAux_none_of_nul (l : List Char) (h : Char.ofNat 0 ∈ l) :
    ∀ acc, digitsToNatAux l acc = none := by
  induction l with
  | nil => cases h
  | cons c cs ih =>
    intro acc
    unfold digitsToNatAux
    by_cases hd : c.isDigit
    · rw [if_pos hd]
      rcases List.mem_cons.mp h with hc | hc
    -- the head cannot be NUL (NUL is not a digit), so NUL sits in the tail
      · subst hc
        exact absurd hd (by decide)
      · exact ih hc _
    · rw [if_neg hd]

theorem digitsToNat_none_of_nul (l : List Char) (h : Char.ofNat 0 ∈ l) :
    digitsToNat l = none := by
  cases l with
  | nil => rfl
  | cons c cs => exact digitsToNatAux_none_of_nul _ h 0

theorem atoi_none_of_nul (cs : List Char) (h : Char.ofNat 0 ∈ cs) :
    atoi cs = none := by
  cases cs with
  | nil => rfl
  | cons c rest =>
    simp only [atoi]
    by_cases hp : c = '+'
    · rw [if_pos hp]
      have hr : Char.ofNat 0 ∈ rest := by
        rcases List.mem_cons.mp h with hc | hc
        · exact absurd (hc.trans hp) (by decide)
        · exact hc
      rw [digitsToNat_none_of_nul rest hr]
      rfl
    · rw [if_neg hp]
      by_cases hm : c = '-'
      · rw [if_pos hm]
        have hr : Char.ofNat 0 ∈ rest := by
          rcases List.mem_cons.mp h with hc | hc
          · exact absurd (hc.trans hm) (by decide)
          · exact hc
        rw [digitsToNat_none_of_nul rest hr]
        rfl
      · rw [if_neg hm, digitsToNat_none_of_nul _ h]
        rfl

theorem atoi_first3_of_short (cs : List Char) (h : cs.length < 3) :
    atoi (first3Runes cs) = none := by
  apply atoi_none_of_nul
  rcases cs with _ | ⟨a, _ | ⟨b, _ | ⟨c, rest⟩⟩⟩
  · decide
  · simp [first3Runes]
  · simp [first3Runes]
  · exfalso
    simp [List.length] at h
    omega

/-- C9: whenever `ParseSMTPError` returns a non-nil LookupError its Details
field is the raw input text verbatim; an input matched by no keyword rule in
`parseBasicErr` gets the raw text as Message too (the unclassified escape
hatch); and the spec's example "No MX records found" yields Message and
Details both equal to the input. -/
theorem C9_details_verbatim :
    (∀ e le, ParseSMTPError e = some le → le.Details = e.msg) ∧
    (∀ e : GoError, e.isEOF = false →
      insContains e.msg basicBlocklistKeywords = false →
      insContains e.msg ["timeout"] = false →
      insContains e.msg ["no such host"] = false →
      insContains e.msg ["unavailable", "connection reset"] = false →
      parseBasicErr e = newLookupError e.msg e.msg) ∧
    ParseSMTPError ⟨"No MX records found", false⟩ =
      some (newLookupError "No MX records found" "No MX records found") := by
  refine ⟨?_, ?_, by decide⟩
  · intro e le h
    by_cases hb : e.msg.utf8ByteSize < 3
    · rw [parse_eq_basic_of_short e hb] at h
      injection h with h
      subst h
      exact parseBasicErr_details e
    · cases hat : atoi (first3Runes e.msg.data) with
      | none =>
        rw [parse_eq_basic_of_atoi_none e hb hat] at h
        injection h with h
        subst h
        exact parseBasicErr_details e
      | some status =>
        rw [parse_eq_of_atoi_some e status hb hat] at h
        by_cases h4 : 400 < status
        · rw [if_pos h4] at h
          by_cases h5 : status < 500
          · rw [if_pos h5] at h
            injection h with h
            subst h
            exact parse4xx_details e status
          · rw [if_neg h5] at h
            injection h with h
            subst h
            exact parse5xx_details e status
        · rw [if_neg h4] at h
          simp at h
  · intro e heof h1 h2 h3 h4
    unfold parseBasicErr
    rw [if_neg (by simp [heof]), if_neg (by simp [h1]), if_neg (by simp [h2]),
      if_neg (by simp [h3]), if_neg (by simp [h4])]

/-- C9 witness: at the unclassified input "mystery failure" the Details and
Message fields both carry the raw text. -/
theorem C9_witness_mystery :
    (newLookupError "mystery failure" "mystery failure").Details =
      "mystery failure" ∧
    parseBasicErr ⟨"mystery failure", false⟩ =
      newLookupError "mystery failure" "mystery failure" :=
  ⟨C9_details_verbatim.1 ⟨"mystery failure", false⟩
      (newLookupError "mystery failure" "mystery failure") (by decide),
   C9_details_verbatim.2.1 ⟨"mystery failure", false⟩ rfl (by decide)
      (by decide) (by decide) (by decide)⟩

/-- C10: `ParseSMTPError` is total on multi-byte input.  A text whose byte
length passes the `len(errStr) < 3` guard but which holds fewer than three
runes does not fault: the Go runtime materialises the `[]rune` conversion in
a zero-cleared buffer of capacity at least 3, the missing positions read as
NUL runes, the status parse fails on them, and the input is routed to
keyword classification; in particular the one-rune three-byte input "€"
yields its raw text as an unclassified LookupError. -/
theorem C10_multibyte_guard (e : GoError)
    (hbyte : 3 ≤ e.msg.utf8ByteSize) (hrunes : e.msg.data.length < 3) :
    ParseSMTPError e = some (parseBasicErr e) ∧
    ParseSMTPError ⟨"€", false⟩ = some (newLookupError "€" "€") := by
  refine ⟨?_, by decide⟩
  exact parse_eq_basic_of_atoi_none e (by omega) (atoi_first3_of_short _ hrunes)

/-- C10 witness: the two-rune six-byte input "€€" passes the byte guard and
is classified by `parseBasicErr` without faulting. -/
theorem C10_witness_two_euro :
    ParseSMTPError ⟨"€€", false⟩ = some (parseBasicErr ⟨"€€", false⟩) :=
  (C10_multibyte_guard ⟨"€€", false⟩ (by decide) (by decide)).1

/-! Components whose implementations are not part of the visible sources
(only their tests are): the MX record type, the priority host-selection
strategy, the verifier configuration, the SMTP probe and the top-level
`CheckSMTP`.  They are modelled from the specification. -/

/-- MX record: mail exchanger host plus preference (lower is more
preferred), as in `net.MX`. -/
structure MXRecord where
  Host : String
  Pref : Nat
deriving DecidableEq, Repr

/-- Modelled from the spec: the ascending list of distinct preference values
occurring in an MX record list ("group MX records by equal preference,
ascending"). -/
def allPrefs (records : List MXRecord) : List Nat :=
  List.insertionSort (· ≤ ·) ((records.map MXRecord.Pref).dedup)

/-- Modelled from the spec: the preference group of `records` at preference
`p`. -/
def prefGroup (records : List MXRecord) (p : Nat) : List MXRecord :=
  records.filter (fun r => r.Pref == p)

/-- Modelled from the spec: the group-by-group loop of the priority strategy.
`dial` abstracts the injected dialing capability (`dialSMTPFunc` in the
tests); `true` means the host produced a live SMTP client.  Each group is
dialed in full (the spec dials a group's hosts concurrently), the first
success within the group wins ("ties broken by first to answer" is
abstracted as list order), and the loop advances to the next group only when
every host of the current group failed.  Returns the winning record, if any,
together with the list of records dialed, in order. -/
def goPriority (dial : String → Bool) (records : List MXRecord) :
    List Nat → Option MXRecord × List MXRecord
  | [] => (none, [])
  | p :: ps =>
    match (prefGroup records p).find? (fun r => dial r.Host) with
    | some w => (some w, prefGroup records p)
    | none =>
      ((goPriority dial records ps).1,
        prefGroup records p ++ (goPriority dial records ps).2)

/-- Modelled from the spec: `newSMTPClientPriority` — missing from the
visible sources, only exercised by its tests — tries preference groups in
ascending order and returns the first successfully dialed MX record plus the
trace of dialed records. -/
def newSMTPClientPriority (dial : String → Bool) (records : List MXRecord) :
    Option MXRecord × List MXRecord :=
  goPriority dial records (allPrefs records)

theorem mem_prefGroup {records : List MXRecord} {p : Nat} {r : MXRecord} :
    r ∈ prefGroup records p ↔ r ∈ records ∧ r.Pref = p := by
  simp [prefGroup]

theorem pref_mem_allPrefs {records : List MXRecord} {r : MXRecord}
    (h : r ∈ records) : r.Pref ∈ allPrefs records := by
  unfold allPrefs
  rw [List.mem_insertionSort, List.mem_dedup]
  exact List.mem_map_of_mem MXRecord.Pref h

theorem sorted_allPrefs (records : List MXRecord) :
    List.Sorted (· ≤ ·) (allPrefs records) :=
  List.sorted_insertionSort _ _

theorem goPriority_trace_mem (dial : String → Bool) (records : List MXRecord) :
    ∀ ps, ∀ r ∈ (goPriority dial records ps).2, r ∈ records ∧ r.Pref ∈ ps := by
  intro ps
  induction ps with
  | nil => simp [goPriority]
  | cons p ps ih =>
    intro r hr
    cases hfind : (prefGroup records p).find? (fun r => dial r.Host) with
    | some w =>
      simp only [goPriority, hfind] at hr
      have := mem_prefGroup.mp hr
      exact ⟨this.1, by simp [this.2]⟩
    | none =>
      simp only [goPriority, hfind] at hr
      rcases List.mem_append.mp hr with hg | ht
      · have := mem_prefGroup.mp hg
        exact ⟨this.1, by simp [this.2]⟩
      · have := ih r ht
        exact ⟨this.1, by simp [this.2]⟩

theorem goPriority_lower_dialed (dial : String → Bool)
    (records : List MXRecord) :
    ∀ ps, List.Sorted (· ≤ ·) ps →
      ∀ r ∈ (goPriority dial records ps).2, ∀ q ∈ records, q.Pref ∈ ps →
        q.Pref < r.Pref →
          q ∈ (goPriority dial records ps).2 ∧ dial q.Host = false := by
  intro ps
  induction ps with
  | nil => simp [goPriority]
  | cons p ps ih =>
    intro hs r hr q hq hqps hlt
    obtain ⟨hhead, htail⟩ := List.sorted_cons.mp hs
    cases hfind : (prefGroup records p).find? (fun r => dial r.Host) with
    | some w =>
      simp only [goPriority, hfind] at hr
      have hrp : r.Pref = p := (mem_prefGroup.mp hr).2
      exfalso
      rcases List.mem_cons.mp hqps with hqp | hqp
      · omega
      · have := hhead _ hqp
        omega
    | none =>
      simp only [goPriority, hfind] at hr ⊢
      rcases List.mem_append.mp hr with hg | ht
      · exfalso
        have hrp : r.Pref = p := (mem_prefGroup.mp hg).2
        rcases List.mem_cons.mp hqps with hqp | hqp
        · omega
        · have := hhead _ hqp
          omega
      · rcases List.mem_cons.mp hqps with hqp | hqp
        · have hqg : q ∈ prefGroup records p := mem_prefGroup.mpr ⟨hq, hqp⟩
          have hdial := List.find?_eq_none.mp hfind q hqg
          exact ⟨List.mem_append.mpr (Or.inl hqg), by
            simpa using hdial⟩
        · have := ih htail r ht q hq hqp hlt
          exact ⟨List.mem_append.mpr (Or.inr this.1), this.2⟩

theorem goPriority_winner (dial : String → Bool) (records : List MXRecord) :
    ∀ ps, List.Sorted (· ≤ ·) ps →
      ∀ w, (goPriority dial records ps).1 = some w →
        w ∈ records ∧ dial w.Host = true ∧
          ∀ q ∈ records, q.Pref ∈ ps → q.Pref < w.Pref →
            dial q.Host = false := by
  intro ps
  induction ps with
  | nil => simp [goPriority]
  | cons p ps ih =>
    intro hs w hw
    obtain ⟨hhead, htail⟩ := List.sorted_cons.mp hs
    cases hfind : (prefGroup records p).find? (fun r => dial r.Host) with
    | some v =>
      simp only [goPriority, hfind, Option.some.injEq] at hw
      subst hw
      have hvg := List.mem_of_find?_eq_some hfind
      have hvp : v.Pref = p := (mem_prefGroup.mp hvg).2
      refine ⟨(mem_prefGroup.mp hvg).1, by simpa using List.find?_some hfind,
        ?_⟩
      intro q hq hqps hlt
      exfalso
      rcases List.mem_cons.mp hqps with hqp | hqp
      · omega
      · have := hhead _ hqp
        omega
    | none =>
      simp only [goPriority, hfind] at hw
      obtain ⟨hmem, hdial, hrest⟩ := ih htail w hw
      refine ⟨hmem, hdial, ?_⟩
      intro q hq hqps hlt
      rcases List.mem_cons.mp hqps with hqp | hqp
      · have hqg : q ∈ prefGroup records p := mem_prefGroup.mpr ⟨hq, hqp⟩
        simpa using List.find?_eq_none.mp hfind q hqg
      · exact hrest q hq hqp hlt

theorem goPriority_none (dial : String → Bool) (records : List MXRecord) :
    ∀ ps, (goPriority dial records ps).1 = none →
      ∀ q ∈ records, q.Pref ∈ ps → dial q.Host = false := by
  intro ps
  induction ps with
  | nil => simp
  | cons p ps ih =>
    intro hnone q hq hqps
    cases hfind : (prefGroup records p).find? (fun r => dial r.Host) with
    | some v =>
      simp only [goPriority, hfind] at hnone
      exact absurd hnone (Option.some_ne_none v)
    | none =>
      simp only [goPriority, hfind] at hnone
      rcases List.mem_cons.mp hqps with hqp | hqp
      · have hqg : q ∈ prefGroup records p := mem_prefGroup.mpr ⟨hq, hqp⟩
        simpa using List.find?_eq_none.mp hfind q hqg
      · exact ih hnone q hq hqp

theorem goPriority_pairwise (dial : String → Bool) (records : List MXRecord) :
    ∀ ps, List.Sorted (· ≤ ·) ps →
      List.Pairwise (fun a b => a.Pref ≤ b.Pref)
        (goPriority dial records ps).2 := by
  intro ps
  induction ps with
  | nil => simp [goPriority]
  | cons p ps ih =>
    intro hs
    obtain ⟨hhead, htail⟩ := List.sorted_cons.mp hs
    have hgroup : List.Pairwise (fun a b => a.Pref ≤ b.Pref)
        (prefGroup records p) := by
      apply List.pairwise_of_forall_mem_list
      intro a ha b hb
      have := (mem_prefGroup.mp ha).2
      have := (mem_prefGroup.mp hb).2
      omega
    cases hfind : (prefGroup records p).find? (fun r => dial r.Host) with
    | some v =>
      simp only [goPriority, hfind]
      exact hgroup
    | none =>
      simp only [goPriority, hfind]
      rw [List.pairwise_append]
      refine ⟨hgroup, ih htail, ?_⟩
      intro a ha b hb
      have hap : a.Pref = p := (mem_prefGroup.mp ha).2
      have hbp := (goPriority_trace_mem dial records ps b hb).2
      have := hhead _ hbp
      omega

/-- C5: under the priority MX strategy, every dialed host belongs to the
given record list; a host is dialed only after every record of every
lower-numbered preference group has been dialed and failed; the dial trace
is ordered by ascending preference; a returned winner was dialed
successfully and every strictly lower-preference record failed; and when
some record of the lowest preference group connects successfully, only that
group is ever dialed and the returned MX is from that group. -/
theorem C5_priority_ordering (dial : String → Bool)
    (records : List MXRecord) :
    (∀ r ∈ (newSMTPClientPriority dial records).2, r ∈ records) ∧
    (∀ r ∈ (newSMTPClientPriority dial records).2, ∀ q ∈ records,
      q.Pref < r.Pref →
        q ∈ (newSMTPClientPriority dial records).2 ∧
          dial q.Host = false) ∧
    List.Pairwise (fun a b => a.Pref ≤ b.Pref)
      (newSMTPClientPriority dial records).2 ∧
    (∀ w, (newSMTPClientPriority dial records).1 = some w →
      w ∈ records ∧ dial w.Host = true ∧
        ∀ q ∈ records, q.Pref < w.Pref → dial q.Host = false) ∧
    (∀ r0 ∈ records, (∀ r ∈ records, r0.Pref ≤ r.Pref) →
      dial r0.Host = true →
        (∀ t ∈ (newSMTPClientPriority dial records).2, t.Pref = r0.Pref) ∧
        ∃ w, (newSMTPClientPriority dial records).1 = some w ∧
          w.Pref = r0.Pref ∧ dial w.Host = true) := by
  have hsorted := sorted_allPrefs records
  have htrace := goPriority_trace_mem dial records (allPrefs records)
  have hlower := goPriority_lower_dialed dial records (allPrefs records)
    hsorted
  have hwinner := goPriority_winner dial records (allPrefs records) hsorted
  refine ⟨fun r hr => (htrace r hr).1, ?_, ?_, ?_, ?_⟩
  · intro r hr q hq hlt
    exact hlower r hr q hq (pref_mem_allPrefs hq) hlt
  · exact goPriority_pairwise dial records (allPrefs records) hsorted
  · intro w hw
    obtain ⟨hmem, hdial, hrest⟩ := hwinner w hw
    exact ⟨hmem, hdial, fun q hq hlt =>
      hrest q hq (pref_mem_allPrefs hq) hlt⟩
  · intro r0 hr0 hmin hdial0
    constructor
    · intro t ht
      have hmem := (htrace t ht).1
      have hle := hmin t hmem
      rcases Nat.lt_or_ge r0.Pref t.Pref with hlt | hge
      · exfalso
        have := (hlower t ht r0 hr0 (pref_mem_allPrefs hr0) hlt).2
        rw [this] at hdial0
        exact Bool.false_ne_true hdial0
      · omega
    · cases hfst : (newSMTPClientPriority dial records).1 with
      | none =>
        exfalso
        have := goPriority_none dial records (allPrefs records) hfst r0 hr0
          (pref_mem_allPrefs hr0)
        rw [this] at hdial0
        exact Bool.false_ne_true hdial0
      | some w =>
        obtain ⟨hmem, hdial, hrest⟩ := hwinner w hfst
        refine ⟨w, rfl, ?_, hdial⟩
        have hle : r0.Pref ≤ w.Pref := hmin w hmem
        rcases Nat.lt_or_ge r0.Pref w.Pref with hlt | hge
        · exfalso
          have := hrest r0 hr0 (pref_mem_allPrefs hr0) hlt
          rw [this] at hdial0
          exact Bool.false_ne_true hdial0
        · omega

/-- Concrete dial capability for the C5 witness: only the primary host
answers. -/
def dialPrimary : String → Bool :=
  fun h => h == "primary.example.com."

/-- Concrete MX record list for the C5 witness: primary at preference 0,
backup at preference 10, as in the repository's priority-strategy tests. -/
def recsPrimaryBackup : List MXRecord :=
  [⟨"primary.example.com.", 0⟩, ⟨"backup.example.com.", 10⟩]

/-- C5 witness: with the primary at preference 0 answering, the priority
strategy returns the primary record, it is in the record list and its dial
succeeded. -/
theorem C5_witness_primary :
    (⟨"primary.example.com.", 0⟩ : MXRecord) ∈ recsPrimaryBackup ∧
    dialPrimary (MXRecord.Host ⟨"primary.example.com.", 0⟩) = true := by
  have h := (C5_priority_ordering dialPrimary recsPrimaryBackup).2.2.2.1
    ⟨"primary.example.com.", 0⟩ (by decide)
  exact ⟨h.1, h.2.1⟩

/-- ProbeResult from the spec's data model (named `SMTP` in the tests): five
booleans whose zero value means "not probed". -/
structure SMTP where
  HostExists : Bool
  FullInbox : Bool
  CatchAll : Bool
  Deliverable : Bool
  Disabled : Bool
deriving DecidableEq, Repr

/-- The zero-valued (empty) ProbeResult, Go `SMTP{}`. -/
def zeroSMTP : SMTP :=
  ⟨false, false, false, false, false⟩

/-- Modelled from the spec: the verifier configuration (builder-style record;
only the fields the modelled operations consume are listed together with the
identity parameters). -/
structure VerifierConfig where
  smtpCheckEnabled : Bool
  catchAllCheckEnabled : Bool
  proxyURI : String
  connectTimeout : Nat
  operationTimeout : Nat
  fromEmail : String
  helloName : String

/-- Modelled from the spec: the possible outcomes of MX resolution — an
ordered record list, a hard non-existent-domain answer, or any other lookup
failure. -/
inductive MXResult where
  | records (rs : List MXRecord)
  | noSuchHost (msg : String)
  | otherFailure (msg : String)
deriving DecidableEq, Repr

/-- Modelled from the spec: the remote server's reply to one RCPT TO —
250/251-class acceptance, a 4xx transient rejection, or a 5xx permanent
rejection carrying the raw reply text. -/
inductive RcptReply where
  | accepted
  | transient (txt : String)
  | rejected (txt : String)
deriving DecidableEq, Repr

/-- Modelled from the spec: the external world a check interacts with — the
MX resolver answer per domain, the RCPT TO reply per (domain, local part),
and the unguessable synthetic local part used by the catch-all round
(abstracting the random generator).  The implementations behind these
capabilities are absent from the visible sources (`lookupMX` and
`dialSMTPFunc` are swapped out by the tests). -/
structure ProbeEnv where
  lookupMX : String → MXResult
  rcpt : String → String → RcptReply
  syntheticLocal : String

/-- Whether the classifier categorizes a rejection text as FullInbox; per the
spec, FullInbox derives from the Error Classifier's categorization of the
RCPT-stage rejection. -/
def rcptFullInbox (txt : String) : Bool :=
  match ParseSMTPError ⟨txt, false⟩ with
  | some le => le.Message == ErrFullInbox
  | none => false

/-- Modelled from the spec: step 3 of the SMTP probe — RCPT TO the target
address; acceptance establishes Deliverable, a 4xx reply is transient (not
Deliverable, not proof of non-existence), a 5xx reply is a permanent
rejection folded into the result through the classifier.  (The spec does not
pin which classifier category feeds Disabled, so it is left unset here.) -/
def stepThreeSMTP (env : ProbeEnv) (domain username : String) : SMTP :=
  match env.rcpt domain username with
  | .accepted =>
    { zeroSMTP with HostExists := true, Deliverable := true }
  | .transient txt =>
    { zeroSMTP with HostExists := true, FullInbox := rcptFullInbox txt }
  | .rejected txt =>
    { zeroSMTP with HostExists := true, FullInbox := rcptFullInbox txt }

/-- Modelled from the spec: the SMTP probe — step 3 followed, only when
catch-all checking is enabled and step 3 succeeded, by step 4's second
RCPT TO with the unguessable synthetic local part: acceptance of the
synthetic address sets CatchAll and forces Deliverable to false (the
original acceptance is not trustworthy evidence); rejection leaves CatchAll
false and Deliverable standing from step 3. -/
def runProbe (cfg : VerifierConfig) (env : ProbeEnv)
    (domain username : String) : SMTP :=
  if cfg.catchAllCheckEnabled &&
      (env.rcpt domain username == RcptReply.accepted) then
    match env.rcpt domain env.syntheticLocal with
    | .accepted =>
      { stepThreeSMTP env domain username with
          CatchAll := true, Deliverable := false }
    | _ =>
      { stepThreeSMTP env domain username with CatchAll := false }
  else stepThreeSMTP env domain username

/-- Modelled from the spec: the top-level check
`check(domain, localPart) → (ProbeResult | nil, error | nil)` — absent from
the visible sources, only exercised by its tests.  It returns (nil, nil)
when SMTP checking is disabled by configuration; an empty ProbeResult with a
NoSuchHost-family error when the domain does not resolve; an empty
ProbeResult with a generic classified error on any other MX lookup failure;
HostExists=false with no error on a definitive zero-MX answer; and
otherwise the probe result. -/
def CheckSMTP (cfg : VerifierConfig) (env : ProbeEnv)
    (domain username : String) : Option SMTP × Option LookupError :=
  if cfg.smtpCheckEnabled = false then (none, none)
  else
    match env.lookupMX domain with
    | .noSuchHost msg => (some zeroSMTP, some (newLookupError ErrNoSuchHost msg))
    | .otherFailure msg => (some zeroSMTP, some (parseBasicErr ⟨msg, false⟩))
    | .records [] => (some zeroSMTP, none)
    | .records (_ :: _) => (some (runProbe cfg env domain username), none)

/-- C6: for every domain and local part, when SMTP checking is disabled in
the verifier configuration, `CheckSMTP` returns a nil ProbeResult and a nil
error. -/
theorem C6_disabled_nil_nil (cfg : VerifierConfig) (env : ProbeEnv)
    (domain username : String) (h : cfg.smtpCheckEnabled = false) :
    CheckSMTP cfg env domain username = (none, none) := by
  unfold CheckSMTP
  rw [if_pos h]

/-- Configuration used by the witnesses: SMTP checking disabled, catch-all
checking enabled. -/
def cfgDisabled : VerifierConfig :=
  ⟨false, true, "", 10, 10, "user@example.org", "localhost"⟩

/-- Environment used by the C6 witness: every lookup resolves and every RCPT
is accepted. -/
def envAcceptAll : ProbeEnv :=
  ⟨fun _ => MXResult.records [⟨"mx.github.com.", 0⟩],
   fun _ _ => RcptReply.accepted, "ahS7zei2"⟩

/-- C6 witness: a disabled-configuration check on a concrete domain returns
(nil, nil). -/
theorem C6_witness_disabled :
    CheckSMTP cfgDisabled envAcceptAll "github.com" "username" =
      (none, none) :=
  C6_disabled_nil_nil cfgDisabled envAcceptAll "github.com" "username" rfl

/-- C7: for every domain whose name does not resolve, `CheckSMTP` returns
the zero-valued ProbeResult — all five boolean fields false — together with
a NoSuchHost-family error, not a nil result and not a populated result. -/
theorem C7_no_such_host (cfg : VerifierConfig) (env : ProbeEnv)
    (domain username msg : String) (hen : cfg.smtpCheckEnabled = true)
    (hmx : env.lookupMX domain = MXResult.noSuchHost msg) :
    CheckSMTP cfg env domain username =
      (some zeroSMTP, some (newLookupError ErrNoSuchHost msg)) ∧
    zeroSMTP.HostExists = false ∧ zeroSMTP.FullInbox = false ∧
    zeroSMTP.CatchAll = false ∧ zeroSMTP.Deliverable = false ∧
    zeroSMTP.Disabled = false := by
  refine ⟨?_, rfl, rfl, rfl, rfl, rfl⟩
  unfold CheckSMTP
  rw [if_neg (by simp [hen]), hmx]

/-- Configuration used by the C7 and C8 witnesses: SMTP checking and
catch-all checking both enabled. -/
def cfgEnabled : VerifierConfig :=
  ⟨true, true, "", 10, 10, "user@example.org", "localhost"⟩

/-- Environment used by the C7 witness: the domain does not resolve. -/
def envNoHost : ProbeEnv :=
  ⟨fun _ => MXResult.noSuchHost "no such host",
   fun _ _ => RcptReply.accepted, "ahS7zei2"⟩

/-- C7 witness: a non-resolving domain yields the empty ProbeResult and the
NoSuchHost error. -/
theorem C7_witness_no_such_host :
    CheckSMTP cfgEnabled envNoHost "notExistHost.com" "" =
      (some zeroSMTP, some (newLookupError ErrNoSuchHost "no such host")) :=
  (C7_no_such_host cfgEnabled envNoHost "notExistHost.com" "" "no such host"
    rfl rfl).1

/-- C8: in the SMTP probe with catch-all checking enabled and the original
recipient's RCPT TO accepted, acceptance of the second, synthetic RCPT TO
yields CatchAll=true with Deliverable forced to false even though step 3 had
established Deliverable=true; rejection of the synthetic RCPT yields
CatchAll=false with Deliverable keeping the value established by the
original RCPT. -/
theorem C8_catch_all (cfg : VerifierConfig) (env : ProbeEnv)
    (domain username : String) (hca : cfg.catchAllCheckEnabled = true)
    (horig : env.rcpt domain username = RcptReply.accepted) :
    (env.rcpt domain env.syntheticLocal = RcptReply.accepted →
      (runProbe cfg env domain username).CatchAll = true ∧
      (runProbe cfg env domain username).Deliverable = false ∧
      (stepThreeSMTP env domain username).Deliverable = true) ∧
    (∀ txt, env.rcpt domain env.syntheticLocal = RcptReply.rejected txt →
      (runProbe cfg env domain username).CatchAll = false ∧
      (runProbe cfg env domain username).Deliverable =
        (stepThreeSMTP env domain username).Deliverable) := by
  have hcond : (cfg.catchAllCheckEnabled &&
      (env.rcpt domain username == RcptReply.accepted)) = true := by
    rw [hca, horig]
    rfl
  have hstep : (stepThreeSMTP env domain username).Deliverable = true := by
    unfold stepThreeSMTP
    rw [horig]
  constructor
  · intro hsyn
    unfold runProbe
    rw [if_pos hcond, hsyn]
    exact ⟨rfl, rfl, hstep⟩
  · intro txt hsyn
    unfold runProbe
    rw [if_pos hcond, hsyn]
    exact ⟨rfl, rfl⟩

/-- Environment used by the C8 witness: a genuinely catch-all domain — every
RCPT TO is accepted, the synthetic one included. -/
def envCatchAll : ProbeEnv :=
  ⟨fun _ => MXResult.records [⟨"mx.github.com.", 0⟩],
   fun _ _ => RcptReply.accepted, "xoh1Aiqu"⟩

/-- C8 witness: on a catch-all domain the probe reports CatchAll=true and
Deliverable=false although the original RCPT was accepted. -/
theorem C8_witness_catch_all :
    (runProbe cfgEnabled envCatchAll "github.com" "someone").CatchAll =
      true ∧
    (runProbe cfgEnabled envCatchAll "github.com" "someone").Deliverable =
      false ∧
    (stepThreeSMTP envCatchAll "github.com" "someone").Deliverable = true :=
  (C8_catch_all cfgEnabled envCatchAll "github.com" "someone" rfl rfl).1 rfl

end EmailVerifier
